import Mathlib

/-
Verification of the WorkTrackWeb maintenance-tracking application.

This file gives a shallow embedding of the data model and operations of the
capture-and-compose subsystem: the live camera capture pipeline
(client/src/components/LiveCameraCapture, whose code is reproduced in
replit.md), the per-activity form schemas and submit handlers
(client/src/forms/*.tsx), the admin aggregation fetch (AdminDashboard), and
the GP reference lookup service (lib/gpDataService.ts).

JavaScript numbers are modelled as rationals (`Rat`), optional values as
`Option`, Firestore payload objects as ordered association lists from field
name to a `FieldValue`, and the distinction between client-clock and
server-assigned timestamps by the inductive `TimeValue`.
-/

namespace WorkTrackWeb

/-- One captured photo record, as produced by `capturePhoto` in
LiveCameraCapture and stored in the photo-array form fields:
`{ photoId, timestamp, lat?, lng?, base64Image }`.  The `lat`/`lng`
coordinates are absent when geolocation did not deliver a position. -/
structure Photo where
  photoId : String
  timestamp : String
  lat : Option Rat
  lng : Option Rat
  base64Image : String
deriving DecidableEq

/-- One fiber-test row of the preventive-maintenance form
(`fiberTests` entries: `{ fiberNo, distance, cumulativeLoss }`). -/
structure FiberTest where
  fiberNo : String
  distance : Rat
  cumulativeLoss : Rat
deriving DecidableEq

/-- A timestamp value stored in a persisted payload.  `clientAssigned`
models `new Date()` / `new Date().toISOString()` evaluated on the client;
`serverAssigned` models Firestore's `serverTimestamp()` sentinel, which the
storage backend replaces with its own clock. -/
inductive TimeValue where
  | clientAssigned (iso : String)
  | serverAssigned
deriving DecidableEq

/-- A value stored under one key of a persisted Firestore payload. -/
inductive FieldValue where
  | strV (s : String)
  | numV (x : Rat)
  | intV (n : Int)
  | optIntV (n : Option Int)
  | optNumV (x : Option Rat)
  | boolV (b : Bool)
  | photosV (ps : List Photo)
  | photoOptV (p : Option Photo)
  | fiberTestsV (ts : List FiberTest)
  | geoV (g : Option (Rat × Rat))
  | timeV (t : TimeValue)
deriving DecidableEq

/-- A persisted document payload: the ordered field-name/value pairs passed
to `addDoc`. -/
abbrev Payload := List (String × FieldValue)

/-! ## Capture Session (LiveCameraCapture.capturePhoto, replit.md)

`capturePhoto` snapshots the video frame to a base64 image, then:

* if `navigator.geolocation` is present it calls `getCurrentPosition`;
  the success callback emits a photo record with `lat`/`lng`, and the
  error callback (denial, position unavailable, timeout) emits a photo
  record without `lat`/`lng`;
* if `navigator.geolocation` is absent, the whole block is skipped and
  `onCapture` is never invoked.
-/

/-- Outcome of the asynchronous `getCurrentPosition` call: which of the two
callbacks fires.  `failure` covers permission denial, position
unavailability and timeout, which all land in the error callback. -/
inductive PositionOutcome where
  | success (lat lng : Rat)
  | failure
deriving DecidableEq

/-- The geolocation environment seen by `capturePhoto`:
whether `navigator.geolocation` exists at all, and, when it does, which
callback of `getCurrentPosition` fires. -/
structure CaptureEnv where
  geolocationAvailable : Bool
  positionOutcome : PositionOutcome
deriving DecidableEq

/-- The list of photo records emitted to the owning field via `onCapture`
by one `capturePhoto` invocation, given the captured frame (`base64Image`),
the generated `photoId` and the snapshot `timestamp`. -/
def capturePhoto (env : CaptureEnv) (photoId timestamp base64Image : String) :
    List Photo :=
  if env.geolocationAvailable then
    match env.positionOutcome with
    | .success lat lng =>
        [{ photoId := photoId, timestamp := timestamp,
           lat := some lat, lng := some lng, base64Image := base64Image }]
    | .failure =>
        [{ photoId := photoId, timestamp := timestamp,
           lat := none, lng := none, base64Image := base64Image }]
  else []

/-! ## GP reference lookup service (lib/gpDataService.ts) -/

/-- One record of the static GP reference dataset (`GPReference`).
Field names are the Lean renderings of the JSON keys
(`"LGD code of GP"` becomes `lgdCodeOfGP`, and so on). -/
structure GPReference where
  district : String
  lgdCodeOfGP : Int
  gpName : String
  positionOfGP : Int
  spanLength : Rat
  originatingMandalCode : Int
  terminatingMandalCode : Int
  surveyCompleted : String
  originatingMandal : String
  terminatingMandal : String
  apsflNewRingId : String
  ringName : String
deriving DecidableEq

/-- `s.toLowerCase()` on the character list of a string. -/
def lowerCh (s : String) : List Char :=
  s.data.map Char.toLower

/-- `startsWithCh pat s` is true when `pat` is an initial segment of `s`. -/
def startsWithCh : List Char → List Char → Bool
  | [], _ => true
  | _ :: _, [] => false
  | p :: ps, c :: cs => p == c && startsWithCh ps cs

/-- `containsSub pat s`: JavaScript `s.includes(pat)`, substring
containment of `pat` in `s`. -/
def containsSub (pat : List Char) : List Char → Bool
  | [] => startsWithCh pat []
  | c :: rest => startsWithCh pat (c :: rest) || containsSub pat rest

/-- The per-record predicate of `GPDataService.searchGPs`: the lowercased
query occurs in the lowercased GP Name, District, Ring Name, Originating
Mandal or Terminating Mandal. -/
def gpMatchesQuery (lowerQuery : List Char) (gp : GPReference) : Bool :=
  containsSub lowerQuery (lowerCh gp.gpName) ||
  containsSub lowerQuery (lowerCh gp.district) ||
  containsSub lowerQuery (lowerCh gp.ringName) ||
  containsSub lowerQuery (lowerCh gp.originatingMandal) ||
  containsSub lowerQuery (lowerCh gp.terminatingMandal)

/-- `GPDataService.searchGPs(query)`: lowercase the query once, then filter
the static dataset by `gpMatchesQuery`.  The dataset itself is a parameter
here (the service holds it in a private static field and only reads it). -/
def searchGPs (data : List GPReference) (query : String) : List GPReference :=
  data.filter (gpMatchesQuery (lowerCh query))

/-- Specification-side reading of the search condition, written from the
claim: the lowercased query occurs as a substring of the lowercased field,
expressed as an explicit decomposition. -/
def OccursLowered (query field : String) : Prop :=
  ∃ pre post, lowerCh field = pre ++ lowerCh query ++ post

/-! ## Corrective maintenance form (forms/CorrectiveMaintenanceForm.tsx) -/

/-- The validated form data of `correctiveMaintenanceSchema`.  Optional
zod fields are `Option`; optional strings default to `""` in the form's
`defaultValues` and stay plain strings in the data object. -/
structure CorrectiveMaintenanceFormData where
  presentLocation : String
  offlineMandalLocation : String
  ttNo : String
  distanceFromPOP : Rat
  gpName : String
  reasonForDamage : String
  restorationPossibleAsPerSLA : Bool
  reasonIfNo : String
  cutLocationPhotos : List Photo
  otdrFromLocation : String
  otdrToLocation : String
  fiberNo : String
  distance : Rat
  cumulativeLoss : Rat
  tensionClamps : Option Int
  suspensionClamps : Option Int
  loopStand : Option Int
  newPoles : Option Int
  jointEnclosures : Option Int
  ofcUsedInKM : Option Rat
  ttClosed : Bool
  ttClosedTime : String
deriving DecidableEq

/-- The 24 values of the `fiberNo` zod enum, `"F1"` through `"F24"`. -/
def fiberNoOptions : List String :=
  ["F1", "F2", "F3", "F4", "F5", "F6", "F7", "F8", "F9", "F10", "F11",
   "F12", "F13", "F14", "F15", "F16", "F17", "F18", "F19", "F20", "F21",
   "F22", "F23", "F24"]

/-- `z.number().int().min(0).optional()`: absent passes, present must be
nonnegative. -/
def optIntNonneg : Option Int → Bool
  | none => true
  | some n => decide (0 ≤ n)

/-- `z.number().min(0).optional()`: absent passes, present must be
nonnegative. -/
def optNumNonneg : Option Rat → Bool
  | none => true
  | some x => decide (0 ≤ x)

/-- The evidence-collection validity rule: a required collection needs at
least one item (`z.array(...).min(1)`, as on `cutLocationPhotos`), an
optional collection always passes (plain `z.array(...)`, as on the
patroller photo fields). -/
def validateEvidence (required : Bool) (l : List Photo) : Bool :=
  if required then decide (1 ≤ l.length) else true

/-- The checks of `correctiveMaintenanceSchema`, in declaration order.
`zodResolver` runs them before `onSubmit` is ever invoked. -/
def correctiveMaintenanceValid (d : CorrectiveMaintenanceFormData) : Bool :=
  decide (1 ≤ d.presentLocation.length) &&
  decide (1 ≤ d.ttNo.length) &&
  decide (0 ≤ d.distanceFromPOP) &&
  decide (1 ≤ d.gpName.length) &&
  decide (1 ≤ d.reasonForDamage.length) &&
  validateEvidence true d.cutLocationPhotos &&
  decide (1 ≤ d.otdrFromLocation.length) &&
  decide (1 ≤ d.otdrToLocation.length) &&
  fiberNoOptions.contains d.fiberNo &&
  decide (0 ≤ d.distance) &&
  decide (0 ≤ d.cumulativeLoss) &&
  optIntNonneg d.tensionClamps &&
  optIntNonneg d.suspensionClamps &&
  optIntNonneg d.loopStand &&
  optIntNonneg d.newPoles &&
  optIntNonneg d.jointEnclosures &&
  optNumNonneg d.ofcUsedInKM

/-- The document written by `CorrectiveMaintenanceForm.onSubmit`:
`{ ...data, currentGeoLocation, userId, userEmail, createdAt: new Date(),
submittedAt: new Date().toISOString(), activityType }`.  The spread copies
every schema field unconditionally; `clientNow` is the client clock at
submit time. -/
def correctiveMaintenancePayload (d : CorrectiveMaintenanceFormData)
    (geoLocation : Option (Rat × Rat)) (userId userEmail clientNow : String) :
    Payload :=
  [("presentLocation", .strV d.presentLocation),
   ("offlineMandalLocation", .strV d.offlineMandalLocation),
   ("ttNo", .strV d.ttNo),
   ("distanceFromPOP", .numV d.distanceFromPOP),
   ("gpName", .strV d.gpName),
   ("reasonForDamage", .strV d.reasonForDamage),
   ("restorationPossibleAsPerSLA", .boolV d.restorationPossibleAsPerSLA),
   ("reasonIfNo", .strV d.reasonIfNo),
   ("cutLocationPhotos", .photosV d.cutLocationPhotos),
   ("otdrFromLocation", .strV d.otdrFromLocation),
   ("otdrToLocation", .strV d.otdrToLocation),
   ("fiberNo", .strV d.fiberNo),
   ("distance", .numV d.distance),
   ("cumulativeLoss", .numV d.cumulativeLoss),
   ("tensionClamps", .optIntV d.tensionClamps),
   ("suspensionClamps", .optIntV d.suspensionClamps),
   ("loopStand", .optIntV d.loopStand),
   ("newPoles", .optIntV d.newPoles),
   ("jointEnclosures", .optIntV d.jointEnclosures),
   ("ofcUsedInKM", .optNumV d.ofcUsedInKM),
   ("ttClosed", .boolV d.ttClosed),
   ("ttClosedTime", .strV d.ttClosedTime),
   ("currentGeoLocation", .geoV geoLocation),
   ("userId", .strV userId),
   ("userEmail", .strV userEmail),
   ("createdAt", .timeV (.clientAssigned clientNow)),
   ("submittedAt", .timeV (.clientAssigned clientNow)),
   ("activityType", .strV "Corrective Maintenance")]

/-- One submission attempt of the corrective-maintenance form:
`handleSubmit(onSubmit)` calls `onSubmit` (which issues `addDoc` with the
payload) only when the resolver accepts the data; otherwise no document is
written. -/
def correctiveMaintenanceSubmit (d : CorrectiveMaintenanceFormData)
    (geoLocation : Option (Rat × Rat)) (userId userEmail clientNow : String) :
    Option Payload :=
  if correctiveMaintenanceValid d then
    some (correctiveMaintenancePayload d geoLocation userId userEmail clientNow)
  else none

/-- The `defaultValues` object passed to `useForm` in
CorrectiveMaintenanceForm; `form.reset()` restores exactly these values. -/
def correctiveDefaultValues : CorrectiveMaintenanceFormData where
  presentLocation := ""
  offlineMandalLocation := ""
  ttNo := ""
  distanceFromPOP := 0
  gpName := ""
  reasonForDamage := ""
  restorationPossibleAsPerSLA := true
  reasonIfNo := ""
  cutLocationPhotos := []
  otdrFromLocation := ""
  otdrToLocation := ""
  fiberNo := "F1"
  distance := 0
  cumulativeLoss := 0
  tensionClamps := some 0
  suspensionClamps := some 0
  loopStand := some 0
  newPoles := some 0
  jointEnclosures := some 0
  ofcUsedInKM := some 0
  ttClosed := false
  ttClosedTime := ""

/-- The session state affected by a submit attempt: the react-hook-form
data tree (photos, gates, fields) and the `geoLocation` useState. -/
structure CorrectiveSessionState where
  data : CorrectiveMaintenanceFormData
  geoLocation : Option (Rat × Rat)
deriving DecidableEq

/-- Outcome of the `addDoc` storage write inside `onSubmit`'s try block. -/
inductive StorageResult where
  | success
  | failure
deriving DecidableEq

/-- Session state after `onSubmit` resolves.  On storage success the form
runs `form.reset()` (back to `defaultValues`) and `setGeoLocation(null)`;
on storage failure the catch block only shows a toast and leaves all form
state untouched. -/
def correctiveAfterSubmit (s : CorrectiveSessionState) :
    StorageResult → CorrectiveSessionState
  | .success => { data := correctiveDefaultValues, geoLocation := none }
  | .failure => s

/-! ## Patroller form (forms/PatrollerMaintenanceForm.tsx) -/

/-- The validated form data of `patrollerSchema`.  Every photo array is a
plain `z.array(photoSchema)` with no minimum, even for the sections whose
camera widget is gated by a boolean toggle and labelled required. -/
structure PatrollerFormData where
  mandalName : String
  location : String
  ringName : String
  noOfGPs : Int
  gpSpanName : String
  sagLocationIdentified : Bool
  sagLocationPhotos : List Photo
  clampDamaged : Bool
  clampDamagePhotos : List Photo
  tensionClampCount : Option Int
  suspensionClampCount : Option Int
  newPoleBendIdentified : Bool
  poleDamage : Bool
  poleDamagePhotos : List Photo
  poleBendNewPoles : Bool
  poleBendPhotos : List Photo
  loopStandIssues : Bool
  loopStandPhotos : List Photo
  treeCuttingActivity : Bool
  treeCuttingPhotos : List Photo
  jointEnclosureProblems : Bool
  jointEnclosurePhotos : List Photo
  cutLocationIdentified : Bool
  cutLocationPhotos : List Photo
  otherActivitiesDescription : String
  otherActivitiesPhotos : List Photo
deriving DecidableEq

/-- The checks of `patrollerSchema`.  Note: no photo array carries a
`min(1)` bound, so emptiness of the gated photo collections is never
checked. -/
def patrollerValid (d : PatrollerFormData) : Bool :=
  decide (1 ≤ d.mandalName.length) &&
  decide (1 ≤ d.location.length) &&
  decide (1 ≤ d.ringName.length) &&
  decide (0 ≤ d.noOfGPs) &&
  decide (1 ≤ d.gpSpanName.length) &&
  optIntNonneg d.tensionClampCount &&
  optIntNonneg d.suspensionClampCount

/-- The document written by `PatrollerMaintenanceForm.onSubmit`:
`{ ...data, userId, userEmail, createdAt, submittedAt, activityType }`.
Again the spread copies every schema field unconditionally. -/
def patrollerPayload (d : PatrollerFormData)
    (userId userEmail clientNow : String) : Payload :=
  [("mandalName", .strV d.mandalName),
   ("location", .strV d.location),
   ("ringName", .strV d.ringName),
   ("noOfGPs", .intV d.noOfGPs),
   ("gpSpanName", .strV d.gpSpanName),
   ("sagLocationIdentified", .boolV d.sagLocationIdentified),
   ("sagLocationPhotos", .photosV d.sagLocationPhotos),
   ("clampDamaged", .boolV d.clampDamaged),
   ("clampDamagePhotos", .photosV d.clampDamagePhotos),
   ("tensionClampCount", .optIntV d.tensionClampCount),
   ("suspensionClampCount", .optIntV d.suspensionClampCount),
   ("newPoleBendIdentified", .boolV d.newPoleBendIdentified),
   ("poleDamage", .boolV d.poleDamage),
   ("poleDamagePhotos", .photosV d.poleDamagePhotos),
   ("poleBendNewPoles", .boolV d.poleBendNewPoles),
   ("poleBendPhotos", .photosV d.poleBendPhotos),
   ("loopStandIssues", .boolV d.loopStandIssues),
   ("loopStandPhotos", .photosV d.loopStandPhotos),
   ("treeCuttingActivity", .boolV d.treeCuttingActivity),
   ("treeCuttingPhotos", .photosV d.treeCuttingPhotos),
   ("jointEnclosureProblems", .boolV d.jointEnclosureProblems),
   ("jointEnclosurePhotos", .photosV d.jointEnclosurePhotos),
   ("cutLocationIdentified", .boolV d.cutLocationIdentified),
   ("cutLocationPhotos", .photosV d.cutLocationPhotos),
   ("otherActivitiesDescription", .strV d.otherActivitiesDescription),
   ("otherActivitiesPhotos", .photosV d.otherActivitiesPhotos),
   ("userId", .strV userId),
   ("userEmail", .strV userEmail),
   ("createdAt", .timeV (.clientAssigned clientNow)),
   ("submittedAt", .timeV (.clientAssigned clientNow)),
   ("activityType", .strV "Patroller Task & Observations")]

/-- One submission attempt of the patroller form: resolver first, then the
`addDoc` write to `patroller_activities`. -/
def patrollerSubmit (d : PatrollerFormData)
    (userId userEmail clientNow : String) : Option Payload :=
  if patrollerValid d then some (patrollerPayload d userId userEmail clientNow)
  else none

/-! ## Punch-in form (forms/PunchInForm.tsx) -/

/-- The validated form data of `punchInSchema`. -/
structure PunchInFormData where
  photoData : Option Photo
  district : String
  clusterBaseLocation : String
  date : String
  engineerName : String
  startReading : Rat
  typeOfActivity : String
  endReading : Option Rat
  totalKM : Option Rat
deriving DecidableEq

/-- The document written by `PunchInForm.onSubmit`:
`{ ...data, userId, userEmail, createdAt: new Date(),
submittedAt: new Date().toISOString() }` (no `activityType` field). -/
def punchInPayload (d : PunchInFormData)
    (userId userEmail clientNow : String) : Payload :=
  [("photoData", .photoOptV d.photoData),
   ("district", .strV d.district),
   ("clusterBaseLocation", .strV d.clusterBaseLocation),
   ("date", .strV d.date),
   ("engineerName", .strV d.engineerName),
   ("startReading", .numV d.startReading),
   ("typeOfActivity", .strV d.typeOfActivity),
   ("endReading", .optNumV d.endReading),
   ("totalKM", .optNumV d.totalKM),
   ("userId", .strV userId),
   ("userEmail", .strV userEmail),
   ("createdAt", .timeV (.clientAssigned clientNow)),
   ("submittedAt", .timeV (.clientAssigned clientNow))]

/-! ## Legacy corrective form (CorrectiveForm.tsx, also in part_004) -/

/-- The validated form data of the legacy `correctiveSchema`. -/
structure CorrectiveLegacyFormData where
  faultID : String
  faultDescription : String
  siteName : String
  reportDate : String
  actionTaken : String
  technicianName : String
  lat : Option Rat
  lng : Option Rat
deriving DecidableEq

/-- The document written by the legacy `CorrectiveForm.onSubmit`:
`{ ...data, userId, userEmail, status: "pending",
createdAt: serverTimestamp(), updatedAt: serverTimestamp() }`.
This variant stores no `submittedAt` field at all; its timestamps are
server-assigned. -/
def correctiveLegacyPayload (d : CorrectiveLegacyFormData)
    (userId userEmail : String) : Payload :=
  [("faultID", .strV d.faultID),
   ("faultDescription", .strV d.faultDescription),
   ("siteName", .strV d.siteName),
   ("reportDate", .strV d.reportDate),
   ("actionTaken", .strV d.actionTaken),
   ("technicianName", .strV d.technicianName),
   ("lat", .optNumV d.lat),
   ("lng", .optNumV d.lng),
   ("userId", .strV userId),
   ("userEmail", .strV userEmail),
   ("status", .strV "pending"),
   ("createdAt", .timeV .serverAssigned),
   ("updatedAt", .timeV .serverAssigned)]

/-! ## Admin aggregation (AdminDashboard.fetchAllRecords, part_002) -/

/-- The Firestore collections queried by the admin dashboard's
`fetchAllRecords` (part_002, the `collections` array). -/
def adminDashboardCollections : List String :=
  ["preventive_maintenance", "corrective_maintenance", "change_requests"]

/-- The Firestore collections the six activity forms write to with
`addDoc`: PunchInForm, PreventiveMaintenanceForm,
CorrectiveMaintenanceForm, ChangeRequestMaintenanceForm,
GPLiveCheckMaintenanceForm and PatrollerMaintenanceForm, in that order. -/
def activityFormCollections : List String :=
  ["punch_in", "preventive_maintenance", "corrective_maintenance",
   "change_requests", "gp_live_check", "patroller_activities"]

/-! ## Submission pipeline re-entry guard -/

/-- The submit-guard state of one form instance: the `loading` useState
flag and the number of `addDoc` (createDocument) calls issued so far. -/
structure SubmitPipelineState where
  loading : Bool
  createDocumentCalls : Nat
deriving DecidableEq

/-- One submit action on the form.  The submit button carries
`disabled={loading}`, so while a submission is pending the action is a
no-op; otherwise `onSubmit` runs `setLoading(true)` and issues exactly one
`addDoc` call (`setLoading(false)` happens only in `finally`, after the
pending write resolves). -/
def submitAction (s : SubmitPipelineState) : SubmitPipelineState :=
  if s.loading then s
  else { loading := true, createDocumentCalls := s.createDocumentCalls + 1 }

/-! ## Repeatable fiber-test rows (forms/PreventiveMaintenanceForm.tsx) -/

/-- One row-removal interaction on the `fiberTests` field array.  The
remove button for a row is rendered only when `fields.length > 1`
(PreventiveMaintenanceForm line 250), so the action can reach
`remove(index)` only on a list of at least two rows; `remove` then deletes
the row at that index. -/
def removeFiberTestRow (rows : List FiberTest) (index : Nat) : List FiberTest :=
  if 1 < rows.length then rows.eraseIdx index else rows

/-! ## Evidence collection operations

`append` is `useFieldArray`'s `append` (CorrectiveMaintenanceForm's
`handleCutLocationPhotoCapture`) or the patroller's `addPhotoToField`
concatenation; `removeAt` is `remove(index)` wired to the per-photo Remove
button, which deletes the entry at an in-range index and leaves the list
unchanged otherwise. -/

/-- One mutation of an evidence photo collection. -/
inductive EvidenceOp where
  | append (p : Photo)
  | removeAt (i : Nat)
deriving DecidableEq

/-- Apply one operation to the collection. -/
def applyEvidenceOp (l : List Photo) : EvidenceOp → List Photo
  | .append p => l ++ [p]
  | .removeAt i => if i < l.length then l.eraseIdx i else l

/-- Run a sequence of operations from left to right. -/
def runEvidenceOps (l : List Photo) : List EvidenceOp → List Photo
  | [] => l
  | op :: ops => runEvidenceOps (applyEvidenceOp l op) ops

/-- Number of `append` operations in a sequence. -/
def appendCount : List EvidenceOp → Nat
  | [] => 0
  | .append _ :: ops => appendCount ops + 1
  | .removeAt _ :: ops => appendCount ops

/-- Number of successful removals in a sequence run from `l`: a `removeAt`
counts when its index is in range of the collection at that moment. -/
def removalCount (l : List Photo) : List EvidenceOp → Nat
  | [] => 0
  | op :: ops =>
      (match op with
       | .append _ => 0
       | .removeAt i => if i < l.length then 1 else 0) +
      removalCount (applyEvidenceOp l op) ops

/-! ## Concrete sample inputs -/

/-- A sample captured photo (shape as produced by `capturePhoto` when the
position source failed). -/
def samplePhoto : Photo where
  photoId := "photo_1717243200000_abc123def"
  timestamp := "2024-06-01T12:00:00.000Z"
  lat := none
  lng := none
  base64Image := "data:image/jpeg;base64,QUJD"

/-- A fully valid corrective-maintenance data object in which both gates
are in the state that hides their dependents (`restorationPossibleAsPerSLA`
is true, `ttClosed` is false) while the dependent fields still hold
leftover values from an earlier gate state. -/
def staleCorrectiveData : CorrectiveMaintenanceFormData where
  presentLocation := "Lat: 16.500000, Lng: 80.600000"
  offlineMandalLocation := ""
  ttNo := "TT-1042"
  distanceFromPOP := 2
  gpName := "Gudivada"
  reasonForDamage := "JCB cut during road widening"
  restorationPossibleAsPerSLA := true
  reasonIfNo := "leftover reason from earlier gate state"
  cutLocationPhotos := [samplePhoto]
  otdrFromLocation := "Mandal A"
  otdrToLocation := "GP B"
  fiberNo := "F3"
  distance := 1
  cumulativeLoss := 0
  tensionClamps := some 0
  suspensionClamps := some 0
  loopStand := some 0
  newPoles := some 0
  jointEnclosures := some 0
  ofcUsedInKM := some 0
  ttClosed := false
  ttClosedTime := "2024-01-01T10:00"

/-- A patroller data object that passes `patrollerSchema` although the SAG
gate is on and its required photo collection is empty. -/
def emptySagPatrollerData : PatrollerFormData where
  mandalName := "Gudivada"
  location := "NH65 km 12"
  ringName := "Ring 12"
  noOfGPs := 4
  gpSpanName := "Span A"
  sagLocationIdentified := true
  sagLocationPhotos := []
  clampDamaged := false
  clampDamagePhotos := []
  tensionClampCount := some 0
  suspensionClampCount := some 0
  newPoleBendIdentified := false
  poleDamage := false
  poleDamagePhotos := []
  poleBendNewPoles := false
  poleBendPhotos := []
  loopStandIssues := false
  loopStandPhotos := []
  treeCuttingActivity := false
  treeCuttingPhotos := []
  jointEnclosureProblems := false
  jointEnclosurePhotos := []
  cutLocationIdentified := false
  cutLocationPhotos := []
  otherActivitiesDescription := ""
  otherActivitiesPhotos := []

/-! ## Theorems -/

/-- Claim C6: a failed storage write leaves every piece of session state
(photos, fields, gates, captured geolocation) exactly as before the
attempt, and a successful write resets the whole session to its initial
defaults (empty evidence collections, gates back to their initial values,
geolocation cleared). -/
theorem submit_session_state_atomic (s : CorrectiveSessionState) :
    correctiveAfterSubmit s .failure = s ∧
    (correctiveAfterSubmit s .failure).data.cutLocationPhotos =
      s.data.cutLocationPhotos ∧
    (correctiveAfterSubmit s .success).data = correctiveDefaultValues ∧
    (correctiveAfterSubmit s .success).data.cutLocationPhotos = [] ∧
    (correctiveAfterSubmit s .success).data.restorationPossibleAsPerSLA = true ∧
    (correctiveAfterSubmit s .success).data.ttClosed = false ∧
    (correctiveAfterSubmit s .success).geoLocation = none :=
  ⟨rfl, rfl, rfl, rfl, rfl, rfl, rfl⟩

/-- Claim C7: from an idle form instance, firing two submit actions within
one pending async window issues exactly one createDocument call: the first
action sets the loading guard and issues the call, the second is a no-op
because the submit button is disabled while loading. -/
theorem no_double_submit (s : SubmitPipelineState) (h : s.loading = false) :
    (submitAction (submitAction s)).createDocumentCalls =
      s.createDocumentCalls + 1 ∧
    submitAction (submitAction s) = submitAction s ∧
    (submitAction s).loading = true := by
  simp [submitAction, h]

/-- Witness for `no_double_submit` at the concrete idle state. -/
theorem no_double_submit_witness :
    (submitAction (submitAction { loading := false, createDocumentCalls := 0 })).createDocumentCalls =
      0 + 1 ∧
    submitAction (submitAction { loading := false, createDocumentCalls := 0 }) =
      submitAction { loading := false, createDocumentCalls := 0 } ∧
    (submitAction { loading := false, createDocumentCalls := 0 }).loading = true :=
  no_double_submit { loading := false, createDocumentCalls := 0 } rfl

/-- Claim C8: removing the sole remaining row of the required `fiberTests`
list is rejected — with exactly one row, the row-removal interaction at
index 0 leaves the list with exactly that one row. -/
theorem row_floor (rows : List FiberTest) (h : rows.length = 1) :
    removeFiberTestRow rows 0 = rows ∧
    (removeFiberTestRow rows 0).length = 1 := by
  have hno : ¬ 1 < rows.length := by omega
  rw [removeFiberTestRow, if_neg hno]
  exact ⟨rfl, h⟩

/-- Witness for `row_floor` on a concrete one-row list. -/
theorem row_floor_witness :
    removeFiberTestRow [{ fiberNo := "1", distance := 0, cumulativeLoss := 0 }] 0 =
      [{ fiberNo := "1", distance := 0, cumulativeLoss := 0 }] ∧
    (removeFiberTestRow [{ fiberNo := "1", distance := 0, cumulativeLoss := 0 }] 0).length = 1 :=
  row_floor [{ fiberNo := "1", distance := 0, cumulativeLoss := 0 }] rfl

/-- Claim C2 counterexample: when the positioning subsystem is unavailable
(`navigator.geolocation` absent), `capturePhoto` emits no photo record at
all — the `onCapture` emission happens only inside the
`if (navigator.geolocation)` block, so the capture does not produce the
claimed single location-less record. -/
theorem capture_no_geolocation_api_emits_nothing :
    capturePhoto { geolocationAvailable := false, positionOutcome := .failure }
      "photo_1" "2024-06-01T12:00:00.000Z" "data:image/jpeg;base64,QUJD" = [] := rfl

/-- Claim C2 (amended): when the geolocation API is present and position
acquisition fails, is denied or times out (the error callback fires),
`capturePhoto` still emits exactly one photo record with `lat`/`lng`
absent and all other fields populated. -/
theorem capturePhoto_best_effort_location (env : CaptureEnv)
    (photoId timestamp base64Image : String)
    (havail : env.geolocationAvailable = true)
    (hfail : env.positionOutcome = .failure) :
    capturePhoto env photoId timestamp base64Image =
      [{ photoId := photoId, timestamp := timestamp, lat := none, lng := none,
         base64Image := base64Image }] := by
  simp [capturePhoto, havail, hfail]

/-- Witness for `capturePhoto_best_effort_location` at a concrete
environment with a failing position source. -/
theorem capturePhoto_best_effort_location_witness :
    capturePhoto { geolocationAvailable := true, positionOutcome := .failure }
      "photo_1" "2024-06-01T12:00:00.000Z" "data:image/jpeg;base64,QUJD" =
      [{ photoId := "photo_1", timestamp := "2024-06-01T12:00:00.000Z",
         lat := none, lng := none,
         base64Image := "data:image/jpeg;base64,QUJD" }] :=
  capturePhoto_best_effort_location
    { geolocationAvailable := true, positionOutcome := .failure }
    "photo_1" "2024-06-01T12:00:00.000Z" "data:image/jpeg;base64,QUJD" rfl rfl

/-- Claim C1 counterexample: a valid corrective-maintenance submission in
which `restorationPossibleAsPerSLA` is true and `ttClosed` is false still
persists the gated fields `reasonIfNo` and `ttClosedTime` with their
leftover values — `onSubmit` spreads the whole data object, skipping
nothing. -/
theorem stale_gated_fields_persisted :
    staleCorrectiveData.restorationPossibleAsPerSLA = true ∧
    staleCorrectiveData.ttClosed = false ∧
    correctiveMaintenanceSubmit staleCorrectiveData none "uid1" "user@quadgen.in"
        "2024-06-01T12:00:00.000Z" =
      some (correctiveMaintenancePayload staleCorrectiveData none "uid1"
        "user@quadgen.in" "2024-06-01T12:00:00.000Z") ∧
    ("reasonIfNo", FieldValue.strV "leftover reason from earlier gate state") ∈
      correctiveMaintenancePayload staleCorrectiveData none "uid1"
        "user@quadgen.in" "2024-06-01T12:00:00.000Z" ∧
    ("ttClosedTime", FieldValue.strV "2024-01-01T10:00") ∈
      correctiveMaintenancePayload staleCorrectiveData none "uid1"
        "user@quadgen.in" "2024-06-01T12:00:00.000Z" := by
  refine ⟨rfl, rfl, rfl, ?_, ?_⟩ <;> decide

/-- Claim C1 (amended): the payload builders never skip gated fields —
for every form data object, the gate-dependent fields (`reasonIfNo` and
`ttClosedTime` in the corrective form, the gated photo arrays in the
patroller form) appear in the constructed payload with whatever value they
hold, regardless of the gate state at submit time. -/
theorem gated_fields_always_in_payload (d : CorrectiveMaintenanceFormData)
    (geo : Option (Rat × Rat)) (p : PatrollerFormData)
    (userId userEmail clientNow : String) :
    ("reasonIfNo", FieldValue.strV d.reasonIfNo) ∈
      correctiveMaintenancePayload d geo userId userEmail clientNow ∧
    ("ttClosedTime", FieldValue.strV d.ttClosedTime) ∈
      correctiveMaintenancePayload d geo userId userEmail clientNow ∧
    ("sagLocationPhotos", FieldValue.photosV p.sagLocationPhotos) ∈
      patrollerPayload p userId userEmail clientNow ∧
    ("cutLocationPhotos", FieldValue.photosV p.cutLocationPhotos) ∈
      patrollerPayload p userId userEmail clientNow := by
  refine ⟨?_, ?_, ?_, ?_⟩ <;>
    simp [correctiveMaintenancePayload, patrollerPayload]

/-- Claim C3 counterexample: the persisted `submittedAt` value is the
client-clock ISO string (`new Date().toISOString()` evaluated in the
browser), not a server-assigned timestamp. -/
theorem submittedAt_client_clock_counterexample :
    (correctiveMaintenancePayload staleCorrectiveData none "uid1"
        "user@quadgen.in" "2024-06-01T12:00:00.000Z").lookup "submittedAt" =
      some (FieldValue.timeV (TimeValue.clientAssigned "2024-06-01T12:00:00.000Z")) ∧
    TimeValue.clientAssigned "2024-06-01T12:00:00.000Z" ≠ TimeValue.serverAssigned := by
  exact ⟨rfl, by decide⟩

/-- Claim C3 (amended): every form that stores `submittedAt` takes it from
the client clock; the storage collaborator's server clock appears only in
the legacy form variants, and there only as `createdAt`/`updatedAt` — the
legacy corrective form stores no `submittedAt` at all. -/
theorem submittedAt_clock_assignment (dc : CorrectiveMaintenanceFormData)
    (geo : Option (Rat × Rat)) (dp : PunchInFormData)
    (dl : CorrectiveLegacyFormData) (userId userEmail clientNow : String) :
    (correctiveMaintenancePayload dc geo userId userEmail clientNow).lookup
        "submittedAt" =
      some (FieldValue.timeV (TimeValue.clientAssigned clientNow)) ∧
    (punchInPayload dp userId userEmail clientNow).lookup "submittedAt" =
      some (FieldValue.timeV (TimeValue.clientAssigned clientNow)) ∧
    (correctiveLegacyPayload dl userId userEmail).lookup "submittedAt" = none ∧
    (correctiveLegacyPayload dl userId userEmail).lookup "createdAt" =
      some (FieldValue.timeV TimeValue.serverAssigned) :=
  ⟨rfl, rfl, rfl, rfl⟩

/-- Claim C4 counterexample: the patroller form persists to
`patroller_activities`, a collection the admin dashboard's
`fetchAllRecords` never queries, so those submissions are invisible to the
admin view. -/
theorem patroller_collection_not_fetched :
    "patroller_activities" ∈ activityFormCollections ∧
    "patroller_activities" ∉ adminDashboardCollections := by decide

/-- Claim C4 (amended): the admin aggregation queries only the
preventive-maintenance, corrective-maintenance and change-request
collections; submissions written by the punch-in, GP-live-check and
patroller forms go to collections outside that set. -/
theorem admin_fetch_coverage :
    activityFormCollections.filter
        (fun c => adminDashboardCollections.contains c) =
      ["preventive_maintenance", "corrective_maintenance", "change_requests"] ∧
    "punch_in" ∉ adminDashboardCollections ∧
    "gp_live_check" ∉ adminDashboardCollections := by decide

/-- Claim C5 counterexample: the patroller schema accepts a submission in
which the SAG-location gate is true and its required photo collection is
empty — validation does not reject it and the createDocument write
proceeds. -/
theorem empty_required_gated_collection_submitted :
    emptySagPatrollerData.sagLocationIdentified = true ∧
    emptySagPatrollerData.sagLocationPhotos = [] ∧
    patrollerSubmit emptySagPatrollerData "uid1" "user@quadgen.in"
        "2024-06-01T12:00:00.000Z" =
      some (patrollerPayload emptySagPatrollerData "uid1" "user@quadgen.in"
        "2024-06-01T12:00:00.000Z") :=
  ⟨rfl, rfl, rfl⟩

/-- Claim C5 (amended): emptiness of an evidence-photo collection blocks
submission exactly where the zod schema carries an explicit `min(1)` bound
— the corrective form's `cutLocationPhotos` — and such a collection with
at least one item passes that check; the patroller form's gated photo
collections carry no bound and are not checked (see the C5
counterexample). -/
theorem required_evidence_min_one_enforcement
    (d : CorrectiveMaintenanceFormData) (geo : Option (Rat × Rat))
    (userId userEmail clientNow : String) :
    (d.cutLocationPhotos = [] →
      correctiveMaintenanceSubmit d geo userId userEmail clientNow = none) ∧
    (validateEvidence true d.cutLocationPhotos = true ↔
      d.cutLocationPhotos ≠ []) := by
  constructor
  · intro h
    rw [correctiveMaintenanceSubmit, if_neg]
    intro hv
    simp [correctiveMaintenanceValid, validateEvidence, h] at hv
  · rcases hl : d.cutLocationPhotos with _ | ⟨p, ps⟩ <;>
      simp [validateEvidence]

/-- Witness for `required_evidence_min_one_enforcement`: with an empty
photo collection the submission is rejected, and the concrete nonempty
collection of `staleCorrectiveData` passes the min-one check. -/
theorem required_evidence_min_one_enforcement_witness :
    correctiveMaintenanceSubmit
        { staleCorrectiveData with cutLocationPhotos := [] } none "uid1"
        "user@quadgen.in" "2024-06-01T12:00:00.000Z" = none ∧
    validateEvidence true staleCorrectiveData.cutLocationPhotos = true :=
  ⟨(required_evidence_min_one_enforcement
      { staleCorrectiveData with cutLocationPhotos := [] } none "uid1"
      "user@quadgen.in" "2024-06-01T12:00:00.000Z").1 rfl,
   (required_evidence_min_one_enforcement staleCorrectiveData none "uid1"
      "user@quadgen.in" "2024-06-01T12:00:00.000Z").2.mpr (by decide)⟩

/-- A `removeAt` step shrinks the collection by one exactly when its index
is in range. -/
theorem applyEvidenceOp_removeAt_length (l : List Photo) (i : Nat) :
    (applyEvidenceOp l (.removeAt i)).length +
      (if i < l.length then 1 else 0) = l.length := by
  by_cases hi : i < l.length
  · simp only [applyEvidenceOp, if_pos hi]
    exact List.length_eraseIdx_add_one hi
  · simp [applyEvidenceOp, if_neg hi]

/-- Running invariant of the evidence operations: final length plus
successful removals equals initial length plus appends. -/
theorem runEvidenceOps_length (ops : List EvidenceOp) :
    ∀ l : List Photo,
      (runEvidenceOps l ops).length + removalCount l ops =
        l.length + appendCount ops := by
  induction ops with
  | nil => intro l; simp [runEvidenceOps, removalCount, appendCount]
  | cons op ops ih =>
    intro l
    cases op with
    | append p =>
      have h := ih (l ++ [p])
      simp only [runEvidenceOps, removalCount, appendCount, applyEvidenceOp,
        List.length_append, List.length_singleton] at h ⊢
      omega
    | removeAt i =>
      have h1 := ih (applyEvidenceOp l (.removeAt i))
      have h2 := applyEvidenceOp_removeAt_length l i
      simp only [runEvidenceOps, removalCount, appendCount] at h1 h2 ⊢
      omega

/-- Claim C9: for every finite sequence of append / remove-at-index
operations on an evidence collection starting from empty, the resulting
length equals the number of appends minus the number of successful
removals, and validating the collection with the required flag set returns
false exactly when the collection is empty. -/
theorem evidence_append_remove_invariant (ops : List EvidenceOp) :
    removalCount [] ops ≤ appendCount ops ∧
    (runEvidenceOps [] ops).length =
      appendCount ops - removalCount [] ops ∧
    (validateEvidence true (runEvidenceOps [] ops) = false ↔
      (runEvidenceOps [] ops).length = 0) := by
  have h := runEvidenceOps_length ops []
  simp only [List.length_nil, Nat.zero_add] at h
  refine ⟨by omega, by omega, ?_⟩
  have hv : validateEvidence true (runEvidenceOps [] ops) =
      decide (1 ≤ (runEvidenceOps [] ops).length) := rfl
  rw [hv, decide_eq_false_iff_not]
  omega

/-- `startsWithCh pat s` holds exactly when `pat` is an initial segment of
`s`. -/
theorem startsWithCh_iff (pat : List Char) :
    ∀ s, startsWithCh pat s = true ↔ ∃ rest, s = pat ++ rest := by
  induction pat with
  | nil =>
    intro s
    simp [startsWithCh]
  | cons p ps ih =>
    intro s
    cases s with
    | nil =>
      simp [startsWithCh]
    | cons c cs =>
      simp only [startsWithCh, Bool.and_eq_true, beq_iff_eq, ih,
        List.cons_append, List.cons.injEq]
      constructor
      · rintro ⟨hpc, rest, hrest⟩
        exact ⟨rest, hpc.symm, hrest⟩
      · rintro ⟨rest, hcp, hrest⟩
        exact ⟨hcp.symm, rest, hrest⟩

/-- `containsSub pat s` (JavaScript `includes`) holds exactly when `pat`
occurs as a contiguous substring of `s`. -/
theorem containsSub_iff (pat : List Char) :
    ∀ s, containsSub pat s = true ↔ ∃ pre post, s = pre ++ pat ++ post := by
  intro s
  induction s with
  | nil =>
    rw [containsSub, startsWithCh_iff]
    constructor
    · rintro ⟨rest, h⟩
      obtain ⟨h1, h2⟩ := List.append_eq_nil.mp h.symm
      exact ⟨[], [], by simp [h1, h2]⟩
    · rintro ⟨pre, post, h⟩
      obtain ⟨h1, h2⟩ := List.append_eq_nil.mp h.symm
      obtain ⟨h3, h4⟩ := List.append_eq_nil.mp h1
      exact ⟨[], by simp [h4]⟩
  | cons c cs ih =>
    rw [containsSub, Bool.or_eq_true, startsWithCh_iff, ih]
    constructor
    · rintro (⟨rest, h⟩ | ⟨pre, post, h⟩)
      · exact ⟨[], rest, by simp [h]⟩
      · exact ⟨c :: pre, post, by simp [h]⟩
    · rintro ⟨pre, post, h⟩
      cases pre with
      | nil =>
        exact Or.inl ⟨post, by simpa using h⟩
      | cons q qs =>
        simp only [List.cons_append, List.cons.injEq] at h
        exact Or.inr ⟨qs, post, h.2⟩

/-- Claim C10: `searchGPs` returns exactly those dataset records in which
the lowercased query occurs as a substring of at least one of GP Name,
District, Ring Name, Originating Mandal or Terminating Mandal (each
compared lowercased), and the result is a sublist of the dataset, hence in
the dataset's original order. -/
theorem searchGPs_characterization (data : List GPReference) (query : String) :
    List.Sublist (searchGPs data query) data ∧
    ∀ gp, gp ∈ searchGPs data query ↔
      gp ∈ data ∧
      (OccursLowered query gp.gpName ∨ OccursLowered query gp.district ∨
       OccursLowered query gp.ringName ∨
       OccursLowered query gp.originatingMandal ∨
       OccursLowered query gp.terminatingMandal) := by
  constructor
  · exact List.filter_sublist data
  · intro gp
    rw [searchGPs, List.mem_filter]
    simp only [gpMatchesQuery, Bool.or_eq_true, containsSub_iff, OccursLowered,
      or_assoc]

end WorkTrackWeb
